import Mathlib

/-!
Verification of the client-side page-controller scripts of this repository.
The repository holds three versions of the same script: src/app.js,
src/unnamed/part_000 and src/unnamed/part_001.  The development below is a
shallow embedding: DOM elements, local storage and the network are explicit
state, browser primitives (event dispatch, timers, animation frames) are
explicit function arguments, and JavaScript numbers are modelled as Int/Rat.
Each definition is translated from the source file and lines named in its
doc comment; names follow the source where Lean allows it.
-/

/-! ## Module runner (App controller) -/

/-- A feature module as the runner sees it: an identifier, whether it has an
entry operation (`typeof module.init === 'function'` / `m.init?.()`), and
whether that entry operation throws when invoked. -/
structure AppModule where
  id : Nat
  hasInit : Bool
  initThrows : Bool
deriving DecidableEq

/-- Observable outcome of running the module list: which modules completed
their entry operation (in order), and which errors the runner logged. -/
structure RunTrace where
  inited : List Nat
  logged : List Nat
deriving DecidableEq

/-- src/app.js App.init (lines 361-372) and src/unnamed/part_000
App.initializeModules (lines 841-850): `modules.forEach` with each call to
`module.init()` wrapped in try/catch; a thrown error is logged
(`console.error`) and the iteration continues with the next module. -/
def initializeModules : List AppModule → RunTrace → RunTrace
  | [], tr => tr
  | m :: rest, tr =>
    if m.hasInit then
      if m.initThrows then
        initializeModules rest { tr with logged := tr.logged ++ [m.id] }
      else
        initializeModules rest { tr with inited := tr.inited ++ [m.id] }
    else
      initializeModules rest tr

/-- src/unnamed/part_001 App.init (lines 342-345):
`this.modules.forEach(m => m.init?.())` with no try/catch.  The optional
call skips a module without an entry operation, but a thrown error escapes
the forEach, so the remaining modules are never visited.  The second
component is the escaped (uncaught-at-the-runner) error, carrying the
throwing module's id, if any. -/
def initModulesNoCatch : List AppModule → RunTrace → RunTrace × Option Nat
  | [], tr => (tr, none)
  | m :: rest, tr =>
    if m.hasInit then
      if m.initThrows then (tr, some m.id)
      else initModulesNoCatch rest { tr with inited := tr.inited ++ [m.id] }
    else
      initModulesNoCatch rest tr

/-! ## Theme preference (Utils.getCurrentTheme / Utils.setTheme / ThemeToggle) -/

/-- The theme string enum stored under the key `theme`. -/
inductive Theme where
  | light
  | dark
deriving DecidableEq

/-- The theme-relevant page state: the stored preference (localStorage key
`theme`, none = absent), the document attribute `data-color-scheme`, the
toggle icon text (none = icon element absent), and the system preference
(`matchMedia('(prefers-color-scheme: dark)').matches`). -/
structure ThemeState where
  stored : Option Theme
  docAttr : Option Theme
  icon : Option String
  systemDark : Bool
deriving DecidableEq

/-- src/app.js Utils.getCurrentTheme (lines 75-77): the stored value, else
the system preference. -/
def Utils.getCurrentTheme (s : ThemeState) : Theme :=
  s.stored.getD (if s.systemDark then Theme.dark else Theme.light)

/-- src/app.js Utils.setTheme (lines 78-81): sets the document attribute and
writes the stored value.  part_000 lines 102-109 and part_001 lines 45-48
are the same operation. -/
def Utils.setTheme (t : Theme) (s : ThemeState) : ThemeState :=
  { s with docAttr := some t, stored := some t }

/-- src/app.js ThemeToggle applyTheme (lines 155-158): Utils.setTheme, then
the icon text if the icon element is present. -/
def ThemeToggle.applyTheme (t : Theme) (s : ThemeState) : ThemeState :=
  let s1 := Utils.setTheme t s
  { s1 with icon := s1.icon.map fun _ => if t = Theme.dark then "☀️" else "🌙" }

/-- src/app.js ThemeToggle.init (lines 151-161), toggle element present:
the initial `applyTheme(Utils.getCurrentTheme())` call.  part_000
ThemeToggle.setInitialTheme (lines 278-282) and part_001 ThemeToggle.init
(line 139) do the same. -/
def ThemeToggle.init (s : ThemeState) : ThemeState :=
  ThemeToggle.applyTheme (Utils.getCurrentTheme s) s

/-- src/app.js ThemeToggle click handler (line 159): apply the flipped
current theme. -/
def ThemeToggle.toggleClick (s : ThemeState) : ThemeState :=
  ThemeToggle.applyTheme
    (if Utils.getCurrentTheme s = Theme.dark then Theme.light else Theme.dark) s

/-- src/unnamed/part_000 ThemeToggle media-change listener (lines 292-298):
on a system-preference change, write the new theme only when no explicit
preference is stored. -/
def ThemeToggle.mediaChange (eventMatches : Bool) (s : ThemeState) : ThemeState :=
  if s.stored = none then
    let t := if eventMatches then Theme.dark else Theme.light
    let s1 := Utils.setTheme t s
    { s1 with icon := s1.icon.map fun _ => if t = Theme.dark then "☀️" else "🌙" }
  else s

/-! ## Modal dialog -/

/-- The modal-relevant page state: the `hidden` class on the modal
container, the modal's `aria-hidden` attribute value (none = attribute
absent), and `document.body.style.overflow`. -/
structure ModalPageState where
  modalHidden : Bool
  ariaHidden : Option String
  bodyOverflow : String
deriving DecidableEq

/-- src/app.js Modal openModal (line 318): only removes the `hidden` class. -/
def Modal.openModal (s : ModalPageState) : ModalPageState :=
  { s with modalHidden := false }

/-- src/app.js Modal closeModal (line 319): only adds the `hidden` class. -/
def Modal.closeModal (s : ModalPageState) : ModalPageState :=
  { s with modalHidden := true }

/-- src/unnamed/part_001 Modal open (lines 280-284): removes `hidden`, sets
`aria-hidden` to "false" and suppresses body scrolling. -/
def P1Modal.openModal (_s : ModalPageState) : ModalPageState :=
  { modalHidden := false, ariaHidden := some "false", bodyOverflow := "hidden" }

/-- src/unnamed/part_001 Modal close (lines 286-290): adds `hidden`, sets
`aria-hidden` to "true" and restores body scrolling. -/
def P1Modal.closeModal (_s : ModalPageState) : ModalPageState :=
  { modalHidden := true, ariaHidden := some "true", bodyOverflow := "" }

/-- src/unnamed/part_000 Modal.openModal (lines 536-547): removes `hidden`
and suppresses body scrolling; no aria attribute is touched. -/
def P0Modal.openModal (s : ModalPageState) : ModalPageState :=
  { s with modalHidden := false, bodyOverflow := "hidden" }

/-- src/unnamed/part_000 Modal.closeModal (lines 549-554). -/
def P0Modal.closeModal (s : ModalPageState) : ModalPageState :=
  { s with modalHidden := true, bodyOverflow := "" }

/-! ## Testimonials carousel state machine (src/app.js lines 183-219) -/

/-- Carousel state: the per-slide `active` flags, the per-navigation-button
`active` flags, and the current index. -/
structure CarouselState where
  slides : List Bool
  navButtons : List Bool
  currentSlide : Nat
deriving DecidableEq

/-- The flag list produced by `forEach((el, i) => el.classList.toggle('active',
i === index))`: element i is active exactly when i = index. -/
def activeFlags (count index : Nat) : List Bool :=
  (List.range count).map fun i => decide (i = index)

/-- src/app.js showSlide (lines 192-197): indices are naturals here, so the
source guard `index < 0 || index >= slides.length` reduces to the upper
bound; an out-of-range index leaves the state unchanged. -/
def showSlide (s : CarouselState) (index : Nat) : CarouselState :=
  if s.slides.length ≤ index then s
  else
    { slides := activeFlags s.slides.length index,
      navButtons := activeFlags s.navButtons.length index,
      currentSlide := index }

/-- src/app.js nextSlide (line 199): `showSlide((currentSlide + 1) % slides.length)`. -/
def nextSlide (s : CarouselState) : CarouselState :=
  showSlide s ((s.currentSlide + 1) % s.slides.length)

/-- k successive autoplay ticks, each invoking nextSlide. -/
def nextIter : Nat → CarouselState → CarouselState
  | 0, s => s
  | k + 1, s => nextIter k (nextSlide s)

/-! ## Module initialization against an incomplete DOM (src/app.js) -/

/-- The JavaScript error a property access on null raises. -/
inductive JsError where
  | typeError
deriving DecidableEq

/-- `el.addEventListener(...)` on the result of a DOM query: returns unit
when the element is present, throws a TypeError when the query returned
null. -/
def addListener (present : Bool) : Except JsError Unit :=
  if present then Except.ok () else Except.error JsError.typeError

/-- `if (el) el.addEventListener(...)`: the guarded form used by
src/app.js Navigation.init; yields whether the listener was bound. -/
def guardedListen (present : Bool) : Except JsError Bool :=
  if present then
    match addListener present with
    | Except.error e => Except.error e
    | Except.ok _ => Except.ok true
  else Except.ok false

/-- Which of the elements Navigation expects are present, and how many
`.nav__link` elements exist. -/
structure NavDom where
  header : Bool
  navToggle : Bool
  navMenu : Bool
  navClose : Bool
  navLinks : Nat
deriving DecidableEq

/-- The listeners Navigation.init bound. -/
structure NavBindings where
  toggleBound : Bool
  closeBound : Bool
  scrollBound : Bool
  linkBindings : Nat
deriving DecidableEq

/-- src/app.js Navigation.init (lines 101-134).  The only element accesses
performed during init are the two guarded addEventListener calls (lines
108-109), one click listener per nav link (lines 111-126, the links exist
because they came from the query), and the window scroll listener (line
133).  header and navMenu are captured but only dereferenced inside the
deferred callbacks, never during init. -/
def Navigation.init (d : NavDom) : Except JsError NavBindings :=
  match guardedListen d.navToggle with
  | Except.error e => Except.error e
  | Except.ok tb =>
    match guardedListen d.navClose with
    | Except.error e => Except.error e
    | Except.ok cb =>
      Except.ok
        { toggleBound := tb, closeBound := cb,
          scrollBound := true, linkBindings := d.navLinks }

/-- The elements TestimonialsCarousel expects: the number of
`.testimonial-card` slides, the number of `.testimonial-nav-btn` buttons,
and whether the `#testimonials-carousel` container is present. -/
structure CarouselDom where
  slides : Nat
  navButtons : Nat
  container : Bool
deriving DecidableEq

/-- The bindings TestimonialsCarousel.init made. -/
structure CarouselBindings where
  navBindings : Nat
  hoverBindings : Bool
  autoplayStarted : Bool
deriving DecidableEq

/-- src/app.js TestimonialsCarousel.init (lines 184-218): returns early when
`slides.length <= 1` (line 187); otherwise binds the nav-button click
handlers and then calls addEventListener twice on the unguarded query
`Utils.$('#testimonials-carousel')` (lines 213-214), which throws when the
container is absent. -/
def TestimonialsCarousel.init (d : CarouselDom) : Except JsError CarouselBindings :=
  if d.slides ≤ 1 then
    Except.ok { navBindings := 0, hoverBindings := false, autoplayStarted := false }
  else
    match addListener d.container with
    | Except.error e => Except.error e
    | Except.ok _ =>
      match addListener d.container with
      | Except.error e => Except.error e
      | Except.ok _ =>
        Except.ok { navBindings := d.navButtons, hoverBindings := true, autoplayStarted := true }

/-- Whether a module's init completed without throwing. -/
def initCompletes {α : Type} : Except JsError α → Bool
  | Except.ok _ => true
  | Except.error _ => false

/-! ## Scroll-driven active-link highlighter -/

/-- A `section[id]` element: its id and its current
`getBoundingClientRect().top`. -/
structure PageSection where
  id : String
  top : Int
deriving DecidableEq

/-- A `.nav__link` element with its `href` attribute. -/
structure NavLinkEl where
  href : String
deriving DecidableEq

/-- src/app.js Navigation.updateActiveLink (lines 135-146): iterate the
sections, remembering the id of every section whose top is above
headerHeight + 50 (later sections overwrite earlier ones), then mark each
link active exactly when its href is "#" followed by that id.  The
part_001 version (lines 111-121) is the same with threshold offset + 60. -/
def Navigation.updateActiveLink (sections : List PageSection)
    (navLinks : List NavLinkEl) (headerHeight : Int) : List Bool :=
  let currentSectionId :=
    sections.foldl (fun cur sec => if sec.top < headerHeight + 50 then sec.id else cur) ""
  navLinks.map fun link => link.href == "#" ++ currentSectionId

/-- Specification-side description of the same quantity: the id of the last
section in document order whose top is above the threshold, "" when no
section qualifies. -/
def lastQualifyingId (sections : List PageSection) (headerHeight : Int) : String :=
  ((sections.reverse.find? fun sec => decide (sec.top < headerHeight + 50)).map
    fun sec => sec.id).getD ""

/-- A section as src/unnamed/part_000 measures it: offsetTop and
offsetHeight. -/
structure PageSection0 where
  id : String
  offsetTop : Int
  offsetHeight : Int
deriving DecidableEq

/-- src/unnamed/part_000 Navigation.setActiveLink (lines 247-254): mark each
link active exactly when its href equals the target. -/
def setActiveLink (navLinks : List NavLinkEl) (target : String) : List Bool :=
  navLinks.map fun link => link.href == target

/-- src/unnamed/part_000 Navigation.updateActiveLink (lines 232-245): for
each section containing scrollY + 100, recompute all the link flags via
setActiveLink; when no section contains that position the incoming flags
are left as they are. -/
def P0Navigation.updateActiveLink (sections : List PageSection0) (scrollY : Int)
    (navLinks : List NavLinkEl) (flags : List Bool) : List Bool :=
  sections.foldl
    (fun fl sec =>
      if scrollY + 100 ≥ sec.offsetTop ∧ scrollY + 100 < sec.offsetTop + sec.offsetHeight
      then setActiveLink navLinks ("#" ++ sec.id)
      else fl)
    flags

/-! ## Form submission -/

/-- A form field: its name, string value and `required` mark. -/
structure FormField where
  name : String
  value : String
  required : Bool
deriving DecidableEq

/-- The submit button: its disabled flag and its label (innerHTML /
textContent). -/
structure SubmitButton where
  disabled : Bool
  label : String
deriving DecidableEq

/-- A form with its fields and submit button. -/
structure FormState where
  fields : List FormField
  button : SubmitButton
deriving DecidableEq

/-- How the fetch to the form-relay endpoint settles: a response with
success true, a response with success false, or a network error. -/
inductive FetchOutcome where
  | success
  | failure
  | networkError
deriving DecidableEq

/-- Observable outcome of one submit-handler run: the payloads POSTed to
the relay endpoint, the alert messages shown, the form state right after
the handler settles, and the form state after the fixed 4000 ms reset
timer. -/
structure SubmitRun where
  posts : List (List (String × String))
  alerts : List String
  settled : FormState
  afterDelay : FormState
deriving DecidableEq

/-- src/app.js AppConfig.web3FormsAccessKey (line 26); part_001 line 9 holds
the same value. -/
def web3FormsAccessKey : String := "f172d582-f61e-4dc1-ac3a-c144e252b0dd"

/-- `form.reset()`: every field value back to its (empty) default. -/
def resetFields (fields : List FormField) : List FormField :=
  fields.map fun f => { f with value := "" }

/-- The JSON body: all field name/value pairs plus the access key. -/
def formPayload (fields : List FormField) : List (String × String) :=
  (fields.map fun f => (f.name, f.value)) ++ [("access_key", web3FormsAccessKey)]

/-- `value.trim()` is falsy exactly when every character of the value is
whitespace; this is the blank test part_001 line 235 performs. -/
def valueBlank (s : String) : Bool :=
  s.data.all fun c => c.isWhitespace

/-- src/unnamed/part_001 FormHandler.attach submit handler (lines 226-271):
key check, then the required-field check
`[...form.elements].every(el => !el.required || el.value.trim())` (alert and
return when it fails, before the button or the network is touched), then
the POST; on success the fields are reset; the finally-timer re-enables the
button and sets its label to the fixed string "Submit". -/
def FormHandler.attach (form : FormState) (outcome : FetchOutcome) : SubmitRun :=
  if web3FormsAccessKey = "" then
    { posts := [], alerts := ["Web3Forms key missing"], settled := form, afterDelay := form }
  else if form.fields.all fun f => !f.required || !(valueBlank f.value) then
    match outcome with
    | FetchOutcome.success =>
      { posts := [formPayload form.fields], alerts := [],
        settled :=
          { fields := resetFields form.fields,
            button := { disabled := true, label := "Sent Successfully!" } },
        afterDelay :=
          { fields := resetFields form.fields,
            button := { disabled := false, label := "Submit" } } }
    | FetchOutcome.failure =>
      { posts := [formPayload form.fields], alerts := [],
        settled :=
          { fields := form.fields,
            button := { disabled := true, label := "Error! Try Again" } },
        afterDelay :=
          { fields := form.fields,
            button := { disabled := false, label := "Submit" } } }
    | FetchOutcome.networkError =>
      { posts := [formPayload form.fields], alerts := [],
        settled :=
          { fields := form.fields,
            button := { disabled := true, label := "Error! Try Again" } },
        afterDelay :=
          { fields := form.fields,
            button := { disabled := false, label := "Submit" } } }
  else
    { posts := [], alerts := ["Please fill all required fields"],
      settled := form, afterDelay := form }

/-- src/app.js FormHandler.attachListener submit handler (lines 263-308): a
placeholder-key check, then (with no required-field validation of its own)
the button is disabled and relabelled and the POST is sent; on success the
fields are reset and the label set to a success message, otherwise to an
error message; the finally-timer re-enables the button and restores the
saved originalButtonText. -/
def FormHandler.attachListener (form : FormState) (outcome : FetchOutcome) : SubmitRun :=
  if web3FormsAccessKey = "YOUR_ACCESS_KEY_HERE" then
    { posts := [], alerts := ["Please replace the placeholder access key"],
      settled := form, afterDelay := form }
  else
    match outcome with
    | FetchOutcome.success =>
      { posts := [formPayload form.fields], alerts := [],
        settled :=
          { fields := resetFields form.fields,
            button := { disabled := true, label := "<span>Sent Successfully!</span>" } },
        afterDelay :=
          { fields := resetFields form.fields,
            button := { disabled := false, label := form.button.label } } }
    | FetchOutcome.failure =>
      { posts := [formPayload form.fields], alerts := [],
        settled :=
          { fields := form.fields,
            button := { disabled := true, label := "<span>Error! Try Again.</span>" } },
        afterDelay :=
          { fields := form.fields,
            button := { disabled := false, label := form.button.label } } }
    | FetchOutcome.networkError =>
      { posts := [formPayload form.fields], alerts := [],
        settled :=
          { fields := form.fields,
            button := { disabled := true, label := "<span>Error! Try Again.</span>" } },
        afterDelay :=
          { fields := form.fields,
            button := { disabled := false, label := form.button.label } } }

/-! ## Numeric counter animation -/

/-- src/app.js easeOutCubic (line 60): `t => 1 - Math.pow(1 - t, 3)`. -/
def easeOutCubic (t : ℚ) : ℚ := 1 - (1 - t) ^ 3

/-- src/app.js Utils.animateNumber progress (line 64):
`Math.min(elapsed / duration, 1)`. -/
def animProgress (duration elapsed : ℚ) : ℚ := min (elapsed / duration) 1

/-- src/app.js Utils.animateNumber frame body (line 66): the displayed
integer at a given elapsed time,
`Math.floor(start + change * easeOutCubic(progress))`.  part_001 lines
23-28 compute the same value. -/
def displayedAt (start change duration elapsed : ℚ) : ℤ :=
  ⌊start + change * easeOutCubic (animProgress duration elapsed)⌋

/-- src/app.js Utils.animateNumber entry (lines 54-70): start is the parsed
current displayed integer; when change = target - start is zero the
function returns before scheduling any animation frame and before any
write to the element text (none).  Otherwise it schedules the frame loop,
whose displayed value at each elapsed time is displayedAt (some). -/
def animateNumber (currentDisplayed target : Int) (duration : ℚ) : Option (ℚ → ℤ) :=
  let start := currentDisplayed
  let change := target - start
  if change = 0 then none
  else some fun elapsed => displayedAt (start : ℚ) (change : ℚ) duration elapsed

/-- src/unnamed/part_000 Utils.animateCounter increment (line 82):
`(target - start) / (duration / 16)`. -/
def counterIncrement (start target duration : ℚ) : ℚ :=
  (target - start) / (duration / 16)

/-- src/unnamed/part_000 Utils.animateCounter value after k 16 ms interval
ticks (lines 85-92): each tick adds the increment and clamps at the target,
where the interval has been cleared (so the value is frozen). -/
def counterCurrent (start target duration : ℚ) : Nat → ℚ
  | 0 => start
  | k + 1 =>
    let c := counterCurrent start target duration k
    let inc := counterIncrement start target duration
    if target ≤ c then c
    else if target ≤ c + inc then target
    else c + inc

/-- Number of 16 ms interval ticks that have fired by a given elapsed time. -/
def counterTicks (elapsed : ℚ) : Nat := (⌊elapsed / 16⌋).toNat

/-- The integer src/unnamed/part_000 Utils.animateCounter displays at a
given elapsed time: the floor of the current value after the ticks fired
so far (line 91). -/
def animateCounterDisplayed (start target duration elapsed : ℚ) : ℤ :=
  ⌊counterCurrent start target duration (counterTicks elapsed)⌋

/-! ## Helper lemmas -/

lemma initializeModules_trace (mods : List AppModule) (tr : RunTrace) :
    initializeModules mods tr =
      { inited := tr.inited ++ ((mods.filter fun m => m.hasInit && !m.initThrows).map fun m => m.id),
        logged := tr.logged ++ ((mods.filter fun m => m.hasInit && m.initThrows).map fun m => m.id) } := by
  induction mods generalizing tr with
  | nil => simp [initializeModules]
  | cons m rest ih =>
    rcases m with ⟨mid, hinit, hthrows⟩
    cases hinit <;> cases hthrows <;>
      simp [initializeModules, List.filter_cons, ih, List.append_assoc]

lemma activeFlags_length (n j : Nat) : (activeFlags n j).length = n := by
  simp [activeFlags]

lemma activeFlags_count_zero (n j : Nat) (h : n ≤ j) : (activeFlags n j).count true = 0 := by
  rw [List.count_eq_zero]
  simp only [activeFlags, List.mem_map, List.mem_range]
  rintro ⟨i, hi, he⟩
  have : i = j := of_decide_eq_true he
  omega

lemma activeFlags_count_one (n j : Nat) (h : j < n) : (activeFlags n j).count true = 1 := by
  induction n with
  | zero => omega
  | succ m ih =>
    have e : activeFlags (m + 1) j = activeFlags m j ++ [decide (m = j)] := by
      simp [activeFlags, List.range_succ]
    rw [e, List.count_append]
    by_cases hj : j < m
    · rw [ih hj]
      have : ¬ m = j := by omega
      simp [this]
    · have h0 : (activeFlags m j).count true = 0 := activeFlags_count_zero m j (by omega)
      rw [h0]
      have : m = j := by omega
      simp [this]

lemma activeFlags_getElem (n j i : Nat) (h : i < n) :
    (activeFlags n j)[i]? = some (decide (i = j)) := by
  simp [activeFlags, List.getElem?_map, List.getElem?_range h]

lemma showSlide_of_lt (s : CarouselState) (index : Nat) (h : index < s.slides.length) :
    showSlide s index =
      { slides := activeFlags s.slides.length index,
        navButtons := activeFlags s.navButtons.length index,
        currentSlide := index } := by
  rw [showSlide, if_neg (by omega)]

lemma showSlide_slides_length (s : CarouselState) (i : Nat) :
    (showSlide s i).slides.length = s.slides.length := by
  rw [showSlide]
  split
  · rfl
  · simp [activeFlags_length]

lemma showSlide_nav_length (s : CarouselState) (i : Nat) :
    (showSlide s i).navButtons.length = s.navButtons.length := by
  rw [showSlide]
  split
  · rfl
  · simp [activeFlags_length]

lemma nextSlide_slides_length (s : CarouselState) :
    (nextSlide s).slides.length = s.slides.length :=
  showSlide_slides_length s _

lemma nextSlide_nav_length (s : CarouselState) :
    (nextSlide s).navButtons.length = s.navButtons.length :=
  showSlide_nav_length s _

lemma nextSlide_current (s : CarouselState) (h : 0 < s.slides.length) :
    (nextSlide s).currentSlide = (s.currentSlide + 1) % s.slides.length := by
  rw [nextSlide, showSlide_of_lt s _ (Nat.mod_lt _ h)]

lemma nextIter_succ_eq (k : Nat) (s : CarouselState) :
    nextIter (k + 1) s = nextSlide (nextIter k s) := by
  induction k generalizing s with
  | zero => rfl
  | succ k ih =>
    have e1 : nextIter (k + 2) s = nextIter (k + 1) (nextSlide s) := rfl
    have e2 : nextIter (k + 1) s = nextIter k (nextSlide s) := rfl
    rw [e1, ih (nextSlide s), e2]

lemma nextIter_slides_length (k : Nat) (s : CarouselState) :
    (nextIter k s).slides.length = s.slides.length := by
  induction k generalizing s with
  | zero => rfl
  | succ k ih =>
    have e : nextIter (k + 1) s = nextIter k (nextSlide s) := rfl
    rw [e, ih (nextSlide s), nextSlide_slides_length]

lemma nextIter_nav_length (k : Nat) (s : CarouselState) :
    (nextIter k s).navButtons.length = s.navButtons.length := by
  induction k generalizing s with
  | zero => rfl
  | succ k ih =>
    have e : nextIter (k + 1) s = nextIter k (nextSlide s) := rfl
    rw [e, ih (nextSlide s), nextSlide_nav_length]

lemma nextIter_current (k : Nat) (s : CarouselState)
    (h0 : 0 < s.slides.length) (hc : s.currentSlide < s.slides.length) :
    (nextIter k s).currentSlide = (s.currentSlide + k) % s.slides.length := by
  induction k generalizing s with
  | zero =>
    show s.currentSlide = (s.currentSlide + 0) % s.slides.length
    rw [Nat.add_zero, Nat.mod_eq_of_lt hc]
  | succ k ih =>
    have e : nextIter (k + 1) s = nextIter k (nextSlide s) := rfl
    have hlen : (nextSlide s).slides.length = s.slides.length := nextSlide_slides_length s
    have hcur : (nextSlide s).currentSlide = (s.currentSlide + 1) % s.slides.length :=
      nextSlide_current s h0
    have h0n : 0 < (nextSlide s).slides.length := by rw [hlen]; exact h0
    have hcn : (nextSlide s).currentSlide < (nextSlide s).slides.length := by
      rw [hlen, hcur]; exact Nat.mod_lt _ h0
    rw [e, ih (nextSlide s) h0n hcn, hlen, hcur, Nat.mod_add_mod]
    congr 1
    omega

lemma find?_append_or {α : Type} (p : α → Bool) (l₁ l₂ : List α) :
    (l₁ ++ l₂).find? p =
      match l₁.find? p with
      | some x => some x
      | none => l₂.find? p := by
  induction l₁ with
  | nil => simp
  | cons x xs ih =>
    by_cases h : p x
    · simp [List.find?_cons_of_pos _ h]
    · simp [List.find?_cons_of_neg _ h, ih]

lemma foldl_last_qualifying (hh : Int) (l : List PageSection) (a : String) :
    l.foldl (fun cur sec => if sec.top < hh + 50 then sec.id else cur) a =
      ((l.reverse.find? fun sec => decide (sec.top < hh + 50)).map fun sec => sec.id).getD a := by
  induction l generalizing a with
  | nil => rfl
  | cons x xs ih =>
    rw [List.foldl_cons, List.reverse_cons, ih, find?_append_or]
    cases hx : xs.reverse.find? fun sec => decide (sec.top < hh + 50) with
    | some y => rfl
    | none =>
      by_cases hq : x.top < hh + 50
      · simp [List.find?, hq]
      · simp [List.find?, hq]

/-! ## Claim theorems -/

/-- C1 counterexample: under the part_001 runner (App.init, lines 342-345,
no try/catch), a list of two modules whose first entry operation throws
yields an empty inited trace — the second module is never initialized —
and the error escapes the runner uncaught instead of being logged there. -/
theorem c1_runner_counterexample :
    (initModulesNoCatch
        [{ id := 0, hasInit := true, initThrows := true },
         { id := 1, hasInit := true, initThrows := false }]
        { inited := [], logged := [] }).1.inited = [] ∧
    (initModulesNoCatch
        [{ id := 0, hasInit := true, initThrows := true },
         { id := 1, hasInit := true, initThrows := false }]
        { inited := [], logged := [] }).2 = some 0 := by
  constructor <;> rfl

/-- C1 (amended): under the app.js / part_000 runner, which wraps each
module entry call in try/catch, every module with a non-throwing entry
operation is initialized (in list order) regardless of the position of
throwing modules, and every throwing module is logged at the runner
boundary; the part_001 runner lacks the wrap, so there an exception aborts
the remaining modules. -/
theorem c1_runner_amended (mods : List AppModule) :
    (initializeModules mods { inited := [], logged := [] }).inited =
      ((mods.filter fun m => m.hasInit && !m.initThrows).map fun m => m.id) ∧
    (initializeModules mods { inited := [], logged := [] }).logged =
      ((mods.filter fun m => m.hasInit && m.initThrows).map fun m => m.id) := by
  rw [initializeModules_trace]
  constructor <;> rfl

/-- C2 counterexample: the app.js submit handler (FormHandler.attachListener,
lines 263-308) performs no required-field validation of its own: invoked on
a form whose required field holds only whitespace (which browser-native
validation does not block), it still issues the POST. -/
theorem c2_form_validation_counterexample :
    ((({ fields := [{ name := "name", value := "   ", required := true }],
         button := { disabled := false, label := "Send Message" } } : FormState)).fields.any
        fun f => f.required && valueBlank f.value) = true ∧
    (FormHandler.attachListener
        { fields := [{ name := "name", value := "   ", required := true }],
          button := { disabled := false, label := "Send Message" } }
        FetchOutcome.success).posts ≠ [] := by
  constructor
  · decide
  · decide

/-- C2 (amended): the part_001 submit handler (FormHandler.attach, lines
226-271) validates that every required field is non-blank before touching
the button or the network: on a submission with a blank required field it
issues no POST and leaves the whole form state, the submit button included,
unchanged. -/
theorem c2_form_validation_amended (form : FormState) (outcome : FetchOutcome)
    (h : ∃ f ∈ form.fields, f.required = true ∧ valueBlank f.value = true) :
    (FormHandler.attach form outcome).posts = [] ∧
    (FormHandler.attach form outcome).settled = form ∧
    (FormHandler.attach form outcome).afterDelay = form := by
  have hall : (form.fields.all fun f => !f.required || !(valueBlank f.value)) = false := by
    obtain ⟨f, hf, hreq, hblank⟩ := h
    cases hp : form.fields.all fun f => !f.required || !(valueBlank f.value)
    · rfl
    · exfalso
      have hz := List.all_eq_true.mp hp f hf
      rw [hreq, hblank] at hz
      simp at hz
  unfold FormHandler.attach
  rw [if_neg (by decide : ¬ (web3FormsAccessKey = ""))]
  rw [if_neg (by simp [hall])]
  exact ⟨rfl, rfl, rfl⟩

/-- C2 witness: a concrete form with one whitespace-only required field, run
through the part_001 handler. -/
theorem c2_form_validation_witness :
    (∃ f ∈ [({ name := "name", value := "   ", required := true } : FormField)],
        f.required = true ∧ valueBlank f.value = true) ∧
    (FormHandler.attach
        { fields := [{ name := "name", value := "   ", required := true }],
          button := { disabled := false, label := "Send Message" } }
        FetchOutcome.success).posts = [] :=
  ⟨by decide,
   (c2_form_validation_amended
      { fields := [{ name := "name", value := "   ", required := true }],
        button := { disabled := false, label := "Send Message" } }
      FetchOutcome.success (by decide)).1⟩

/-- C3 counterexample: the part_001 handler (FormHandler.attach, lines
264-268) does not restore the saved original label after the fixed delay —
it sets the hardcoded string "Submit": on a form whose button label was
"Send Message", the label after the delay differs from the original. -/
theorem c3_submit_success_counterexample :
    (FormHandler.attach
        { fields := [{ name := "name", value := "Alice", required := true }],
          button := { disabled := false, label := "Send Message" } }
        FetchOutcome.success).afterDelay.button.label = "Submit" ∧
    ("Submit" : String) ≠ "Send Message" := by
  constructor
  · rfl
  · decide

/-- C3 (amended): for the app.js handler (FormHandler.attachListener) the
claim holds as stated: a submission the endpoint accepts resets the form
fields, and after the fixed 4000 ms delay the submit button is enabled
again with its saved original label; the part_001 handler instead sets the
fixed label "Submit", which equals the original only when the original was
"Submit". -/
theorem c3_submit_success_amended (form : FormState) :
    (FormHandler.attachListener form FetchOutcome.success).posts = [formPayload form.fields] ∧
    (FormHandler.attachListener form FetchOutcome.success).settled.fields = resetFields form.fields ∧
    (FormHandler.attachListener form FetchOutcome.success).afterDelay.fields = resetFields form.fields ∧
    (FormHandler.attachListener form FetchOutcome.success).afterDelay.button.disabled = false ∧
    (FormHandler.attachListener form FetchOutcome.success).afterDelay.button.label = form.button.label := by
  unfold FormHandler.attachListener
  rw [if_neg (by decide : ¬ (web3FormsAccessKey = "YOUR_ACCESS_KEY_HERE"))]
  exact ⟨rfl, rfl, rfl, rfl, rfl⟩

/-- C4 counterexample: plain theme-module initialization writes the stored
preference.  Starting from a state with no stored preference, ThemeToggle
init (app.js lines 151-161; the part_000 and part_001 inits call the same
Utils.setTheme) leaves the stored value changed, although init is neither
the toggle action nor a system-preference-change notification. -/
theorem c4_theme_write_counterexample :
    (ThemeToggle.init
        { stored := none, docAttr := none, icon := some "🌙", systemDark := false }).stored ≠
      ({ stored := none, docAttr := none, icon := some "🌙", systemDark := false } : ThemeState).stored := by
  decide

/-- C4 (amended): the stored theme preference is written by the theme-toggle
action (to the flipped current theme), by a system-preference-change
notification when no explicit preference is stored, and also by
theme-module initialization, which persists the currently derived
preference (so after init an explicit preference is always stored). -/
theorem c4_theme_write_amended (s : ThemeState) :
    (ThemeToggle.init s).stored = some (Utils.getCurrentTheme s) ∧
    (ThemeToggle.toggleClick s).stored =
      some (if Utils.getCurrentTheme s = Theme.dark then Theme.light else Theme.dark) ∧
    ∀ m : Bool, (ThemeToggle.mediaChange m s).stored =
      if s.stored = none then some (if m then Theme.dark else Theme.light) else s.stored := by
  refine ⟨rfl, rfl, fun m => ?_⟩
  rcases hs : s.stored with _ | t
  · simp [ThemeToggle.mediaChange, Utils.setTheme, hs]
  · simp [ThemeToggle.mediaChange, hs]

/-- C5 counterexample: src/app.js TestimonialsCarousel.init (lines 184-218)
does not skip its bindings when the `#testimonials-carousel` container is
absent: with two slides present and the container missing, init throws a
TypeError (lines 213-214 call addEventListener on a null query result)
instead of completing with reduced functionality. -/
theorem c5_missing_element_counterexample :
    TestimonialsCarousel.init { slides := 2, navButtons := 2, container := false } =
      Except.error JsError.typeError := by
  rfl

/-- C5 (amended): src/app.js Navigation.init completes without throwing on
every DOM configuration, binding exactly the listeners whose elements are
present; src/app.js TestimonialsCarousel.init completes without throwing
exactly when there is at most one slide (early return) or the carousel
container is present — with two or more slides and no container it throws
(the module-runner try/catch then contains the failure). -/
theorem c5_missing_element_amended (nd : NavDom) (cd : CarouselDom) :
    Navigation.init nd =
      Except.ok { toggleBound := nd.navToggle, closeBound := nd.navClose,
                  scrollBound := true, linkBindings := nd.navLinks } ∧
    (initCompletes (TestimonialsCarousel.init cd) = true ↔ (cd.slides ≤ 1 ∨ cd.container = true)) := by
  constructor
  · rcases nd with ⟨hh, t, m, c, l⟩
    cases t <;> cases c <;> rfl
  · rcases cd with ⟨sl, nb, co⟩
    by_cases h : sl ≤ 1
    · simp [TestimonialsCarousel.init, initCompletes, h]
    · cases co <;> simp [TestimonialsCarousel.init, initCompletes, addListener, h]

/-- C6: for every carousel state with n ≥ 2 slides, as many navigation
buttons as slides and a valid current index, repeated nextSlide calls cycle
the current index with period exactly n (conjuncts 1-3); after every
transition — any autoplay/next step (conjunct 4) and any valid goTo, that
is showSlide with an in-range index (conjunct 5) — exactly one slide flag
and exactly one navigation-button flag are set, both at the current index. -/
theorem c6_carousel_cycle (s : CarouselState)
    (hn : 2 ≤ s.slides.length)
    (hb : s.navButtons.length = s.slides.length)
    (hc : s.currentSlide < s.slides.length) :
    (∀ k, (nextIter k s).currentSlide = (s.currentSlide + k) % s.slides.length) ∧
    (nextIter s.slides.length s).currentSlide = s.currentSlide ∧
    (∀ k, 0 < k → k < s.slides.length → (nextIter k s).currentSlide ≠ s.currentSlide) ∧
    (∀ k,
      (nextIter (k + 1) s).slides.count true = 1 ∧
      (nextIter (k + 1) s).navButtons.count true = 1 ∧
      (nextIter (k + 1) s).slides[(nextIter (k + 1) s).currentSlide]? = some true ∧
      (nextIter (k + 1) s).navButtons[(nextIter (k + 1) s).currentSlide]? = some true) ∧
    (∀ i, i < s.slides.length →
      (showSlide s i).currentSlide = i ∧
      (showSlide s i).slides.count true = 1 ∧
      (showSlide s i).navButtons.count true = 1 ∧
      (showSlide s i).slides[i]? = some true ∧
      (showSlide s i).navButtons[i]? = some true) := by
  have h0 : 0 < s.slides.length := by omega
  refine ⟨fun k => nextIter_current k s h0 hc, ?_, ?_, ?_, ?_⟩
  · rw [nextIter_current _ s h0 hc, Nat.add_mod_right, Nat.mod_eq_of_lt hc]
  · intro k hk1 hk2
    rw [nextIter_current k s h0 hc]
    intro heq
    by_cases hlt : s.currentSlide + k < s.slides.length
    · rw [Nat.mod_eq_of_lt hlt] at heq
      omega
    · rw [Nat.mod_eq_sub_mod (by omega), Nat.mod_eq_of_lt (by omega)] at heq
      omega
  · intro k
    have e : nextIter (k + 1) s = nextSlide (nextIter k s) := nextIter_succ_eq k s
    have hlen : (nextIter k s).slides.length = s.slides.length := nextIter_slides_length k s
    have hnav : (nextIter k s).navButtons.length = s.navButtons.length := nextIter_nav_length k s
    have h0i : 0 < (nextIter k s).slides.length := by omega
    have hidx : ((nextIter k s).currentSlide + 1) % (nextIter k s).slides.length <
        (nextIter k s).slides.length := Nat.mod_lt _ h0i
    have e2 : nextSlide (nextIter k s) =
        showSlide (nextIter k s)
          (((nextIter k s).currentSlide + 1) % (nextIter k s).slides.length) := rfl
    rw [e, e2, showSlide_of_lt _ _ hidx]
    have hidxnav : ((nextIter k s).currentSlide + 1) % (nextIter k s).slides.length <
        (nextIter k s).navButtons.length := by omega
    refine ⟨activeFlags_count_one _ _ hidx, activeFlags_count_one _ _ hidxnav, ?_, ?_⟩
    · rw [activeFlags_getElem _ _ _ hidx]
      simp
    · rw [activeFlags_getElem _ _ _ hidxnav]
      simp
  · intro i hi
    have hinav : i < s.navButtons.length := by omega
    rw [showSlide_of_lt s i hi]
    refine ⟨rfl, activeFlags_count_one _ _ hi, activeFlags_count_one _ _ hinav, ?_, ?_⟩
    · rw [activeFlags_getElem _ _ _ hi]
      simp
    · rw [activeFlags_getElem _ _ _ hinav]
      simp

/-- C6 witness: the two-slide carousel in its initial state; two next steps
return to index 0 and one next step leaves it. -/
theorem c6_carousel_cycle_witness :
    (nextIter 2 { slides := [true, false], navButtons := [true, false], currentSlide := 0 }).currentSlide = 0 ∧
    (nextIter 1 { slides := [true, false], navButtons := [true, false], currentSlide := 0 }).currentSlide ≠ 0 :=
  ⟨(c6_carousel_cycle
      { slides := [true, false], navButtons := [true, false], currentSlide := 0 }
      (by decide) (by decide) (by decide)).2.1,
   (c6_carousel_cycle
      { slides := [true, false], navButtons := [true, false], currentSlide := 0 }
      (by decide) (by decide) (by decide)).2.2.1 1 (by decide) (by decide)⟩

/-- C7 counterexample: the app.js Modal (lines 312-329) toggles only the
`hidden` class — opening it neither suppresses body scrolling nor sets the
`aria-hidden` accessibility attribute. -/
theorem c7_modal_counterexample :
    (Modal.openModal { modalHidden := true, ariaHidden := some "true", bodyOverflow := "" }).bodyOverflow ≠ "hidden" ∧
    (Modal.openModal { modalHidden := true, ariaHidden := some "true", bodyOverflow := "" }).ariaHidden ≠ some "false" := by
  constructor <;> decide

/-- C7 (amended): in the part_001 modal, opening shows the dialog,
suppresses background scrolling (body overflow "hidden") and marks the
dialog accessible (aria-hidden "false"), and closing reverses all three; in
the part_000 modal opening/closing toggles only the scroll suppression
(no aria attribute), and in the app.js modal only the hidden class. -/
theorem c7_modal_amended (s : ModalPageState) :
    (P1Modal.openModal s).modalHidden = false ∧
    (P1Modal.openModal s).ariaHidden = some "false" ∧
    (P1Modal.openModal s).bodyOverflow = "hidden" ∧
    (P1Modal.closeModal s).modalHidden = true ∧
    (P1Modal.closeModal s).ariaHidden = some "true" ∧
    (P1Modal.closeModal s).bodyOverflow = "" ∧
    (P0Modal.openModal s).bodyOverflow = "hidden" ∧
    (P0Modal.openModal s).ariaHidden = s.ariaHidden ∧
    (P0Modal.closeModal s).bodyOverflow = "" ∧
    (Modal.openModal s).bodyOverflow = s.bodyOverflow ∧
    (Modal.openModal s).ariaHidden = s.ariaHidden ∧
    (Modal.closeModal s).bodyOverflow = s.bodyOverflow :=
  ⟨rfl, rfl, rfl, rfl, rfl, rfl, rfl, rfl, rfl, rfl, rfl, rfl⟩

/-- C8 counterexample: the part_000 highlighter (updateActiveLink, lines
232-245) recomputes the flags only for a section containing the scroll
position: with one section starting below the position and the home link
currently active, no section qualifies, yet the link stays marked active. -/
theorem c8_active_link_counterexample :
    (∀ sec ∈ ([{ id := "home", offsetTop := 200, offsetHeight := 100 }] : List PageSection0),
      ¬ ((0 : Int) + 100 ≥ sec.offsetTop ∧ (0 : Int) + 100 < sec.offsetTop + sec.offsetHeight)) ∧
    P0Navigation.updateActiveLink [{ id := "home", offsetTop := 200, offsetHeight := 100 }] 0
      [{ href := "#home" }] [true] = [true] := by
  constructor
  · decide
  · rfl

/-- C8 (amended): for the app.js highlighter (updateActiveLink, lines
135-146; the part_001 version is the same with a + 60 threshold) the claim
holds as stated: after a recomputation a link is active exactly when its
href is "#" followed by the id of the last section in document order whose
top is above headerHeight + 50 — iteration overwrites earlier matches —
and when no section qualifies (and no link has the bare href "#") no link
is active; the part_000 version instead retains the previous flags when no
section contains the scroll position. -/
theorem c8_active_link_amended (sections : List PageSection) (navLinks : List NavLinkEl)
    (headerHeight : Int) :
    Navigation.updateActiveLink sections navLinks headerHeight =
      (navLinks.map fun link => link.href == "#" ++ lastQualifyingId sections headerHeight) ∧
    ((∀ sec ∈ sections, ¬ sec.top < headerHeight + 50) →
      (∀ link ∈ navLinks, link.href ≠ "#") →
      ∀ b ∈ Navigation.updateActiveLink sections navLinks headerHeight, b = false) := by
  have key : Navigation.updateActiveLink sections navLinks headerHeight =
      navLinks.map fun link => link.href == "#" ++ lastQualifyingId sections headerHeight := by
    unfold Navigation.updateActiveLink lastQualifyingId
    rw [foldl_last_qualifying]
  refine ⟨key, fun hsec hlink b hb => ?_⟩
  rw [key] at hb
  have hnone : (sections.reverse.find? fun sec => decide (sec.top < headerHeight + 50)) = none := by
    rw [List.find?_eq_none]
    intro x hx
    simp only [decide_eq_true_eq]
    exact hsec x (List.mem_reverse.mp hx)
  have hid : lastQualifyingId sections headerHeight = "" := by
    unfold lastQualifyingId
    rw [hnone]
    rfl
  rw [hid] at hb
  obtain ⟨link, hl, rfl⟩ := List.mem_map.mp hb
  have he : ("#" ++ "" : String) = "#" := rfl
  rw [he]
  exact beq_eq_false_iff_ne.mpr (hlink link hl)

/-- C9 counterexample: the part_000 interval-based counter
(Utils.animateCounter, lines 80-93) with start 0, target 100 and duration
24 ms has fired one 16 ms tick by elapsed time 24 ≥ duration, and displays
66point-something floored to 66 — not exactly 100. -/
theorem c9_counter_counterexample :
    (24 : ℚ) ≤ 24 ∧ animateCounterDisplayed 0 100 24 24 ≠ 100 := by
  refine ⟨le_refl _, ?_⟩
  have ht : counterTicks 24 = 1 := by
    unfold counterTicks
    norm_num
  have hc1 : counterCurrent 0 100 24 1 = 200 / 3 := by
    norm_num [counterCurrent, counterIncrement]
  unfold animateCounterDisplayed
  rw [ht, hc1]
  norm_num

/-- C9 (amended): for the app.js / part_001 frame-based animation
(Utils.animateNumber) with start 0, target 100 and any positive duration D,
the displayed value at elapsed time 0 is 0, at every elapsed time ≥ D it is
exactly 100, and it is monotonically non-decreasing in the elapsed time;
the part_000 interval-based animateCounter misses the third-of-the-claim
exactness at elapsed = D whenever 16 does not divide D. -/
theorem c9_counter_amended (D : ℚ) (hD : 0 < D) :
    displayedAt 0 100 D 0 = 0 ∧
    (∀ e : ℚ, D ≤ e → displayedAt 0 100 D e = 100) ∧
    (∀ e₁ e₂ : ℚ, e₁ ≤ e₂ → displayedAt 0 100 D e₁ ≤ displayedAt 0 100 D e₂) := by
  refine ⟨?_, ?_, ?_⟩
  · have hp : animProgress D 0 = 0 := by
      unfold animProgress
      rw [zero_div]
      exact min_eq_left (by norm_num)
    unfold displayedAt
    rw [hp]
    norm_num [easeOutCubic]
  · intro e he
    have hp : animProgress D e = 1 := by
      unfold animProgress
      exact min_eq_right ((one_le_div hD).mpr he)
    unfold displayedAt
    rw [hp]
    norm_num [easeOutCubic]
  · intro e₁ e₂ h
    unfold displayedAt
    apply Int.floor_le_floor
    have hp : animProgress D e₁ ≤ animProgress D e₂ := by
      unfold animProgress
      exact min_le_min (by gcongr) le_rfl
    have hub : animProgress D e₂ ≤ 1 := min_le_right _ _
    have hcube : (1 - animProgress D e₂) ^ 3 ≤ (1 - animProgress D e₁) ^ 3 :=
      pow_le_pow_left₀ (by linarith) (by linarith) 3
    have hease : easeOutCubic (animProgress D e₁) ≤ easeOutCubic (animProgress D e₂) := by
      unfold easeOutCubic
      linarith
    linarith

/-- C9 witness: the configured 2500 ms duration at elapsed time 0. -/
theorem c9_counter_witness :
    (0 : ℚ) < 2500 ∧ displayedAt 0 100 2500 0 = 0 :=
  ⟨by norm_num, (c9_counter_amended 2500 (by norm_num)).1⟩

/-- C10: src/app.js Utils.animateNumber (lines 54-70) called with a target
equal to the element's current displayed integer computes change = 0 and
returns before scheduling any animation frame and before any write to the
element text (the result none carries no frame function). -/
theorem c10_animate_number_noop (currentDisplayed target : Int) (duration : ℚ)
    (h : target = currentDisplayed) :
    animateNumber currentDisplayed target duration = none := by
  subst h
  simp [animateNumber]

/-- C10 witness: a concrete call with the displayed value already at the
target. -/
theorem c10_animate_number_noop_witness :
    (42 : Int) = 42 ∧ animateNumber 42 42 2000 = none :=
  ⟨rfl, c10_animate_number_noop 42 42 2000 rfl⟩
